import Mathlib

set_option maxRecDepth 8000

/-!
Verification development for the unitAI repository (two Python scripts:
scripts/validate_metadata.py and scripts/generate_template.py).

The Python code is shallowly embedded: strings are Lean `String`s handled
through their character lists, YAML scalar/list values are an inductive
type carrying their Python `str()` form, dictionaries are association
lists, and the regular expressions of the source are translated into
explicit character-list parsers with Python `re` semantics (in particular,
a final `$` in a Python pattern also matches just before a single trailing
newline).  Non-ASCII decimal digits, which the Python class `\d` would accept,
are outside the model: `\d` is modelled as the ASCII digit test.
File input/output and process exit are modelled by passing file content in
and returning the would-be exit code and printed report.
-/

/-! ## Basic string helpers (Python semantics) -/

/-- Python `str.startswith`, over character lists. -/
def pyStartsWith (s p : String) : Bool := p.data.isPrefixOf s.data

/-- Python `str.endswith`, over character lists. -/
def pyEndsWith (s p : String) : Bool := p.data.isSuffixOf s.data

/-- Python `str.rstrip` with an underscore argument: remove every trailing underscore. -/
def rstripUnderscore (s : String) : String :=
  String.mk ((s.data.reverse.dropWhile (fun c => c = '_')).reverse)

/-- Join a list of strings with `", "`, as Python `", ".join(...)`. -/
def joinComma : List String → String
  | [] => ""
  | [s] => s
  | s :: rest => s ++ ", " ++ joinComma rest

/-- Lookup in an association list keyed by strings; models Python `dict.get`
for string keys (dict keys are unique, so first match is the value). -/
def assocLookup {α : Type} : List (String × α) → String → Option α
  | [], _ => none
  | (k, v) :: rest, key => if k = key then some v else assocLookup rest key

/-! ## YAML values

The validator only inspects values through `str(...)`, truthiness, and
`isinstance(..., list)`, so a value is modelled by its shape: the scalar
shapes that YAML produces for the fields at hand (strings, integers,
booleans, null, dates) and lists. -/

inductive YamlValue where
  | nullV : YamlValue
  | boolV (b : Bool) : YamlValue
  | intV (n : Int) : YamlValue
  | strV (s : String) : YamlValue
  | dateV (y m d : Nat) : YamlValue
  | listV (vs : List YamlValue) : YamlValue

/-- Zero-pad a natural number to two digits (for `datetime.date.__str__`). -/
def pad2 (n : Nat) : String := if n < 10 then "0" ++ toString n else toString n

/-- Zero-pad a natural number to four digits (for `datetime.date.__str__`). -/
def pad4 (n : Nat) : String :=
  if n < 10 then "000" ++ toString n
  else if n < 100 then "00" ++ toString n
  else if n < 1000 then "0" ++ toString n
  else toString n

mutual

/-- Python `repr` of a value (only the shape matters for the checks;
string escaping inside `repr` is not modelled). -/
def pyRepr : YamlValue → String
  | .nullV => "None"
  | .boolV b => if b then "True" else "False"
  | .intV n => toString n
  | .strV s => "\x27" ++ s ++ "\x27"
  | .dateV y m d => "datetime.date(" ++ toString y ++ ", " ++ toString m ++ ", " ++ toString d ++ ")"
  | .listV vs => "[" ++ pyReprList vs ++ "]"

/-- Comma-separated reprs of list elements, as Python `repr` of a list. -/
def pyReprList : List YamlValue → String
  | [] => ""
  | [v] => pyRepr v
  | v :: rest => pyRepr v ++ ", " ++ pyReprList rest

end

/-- Python `str()` of a value. -/
def pyStr : YamlValue → String
  | .strV s => s
  | .dateV y m d => pad4 y ++ "-" ++ pad2 m ++ "-" ++ pad2 d
  | v => pyRepr v

/-- Python truthiness (`bool(...)`) of a value. -/
def truthy : YamlValue → Bool
  | .nullV => false
  | .boolV b => b
  | .intV n => n != 0
  | .strV s => !s.data.isEmpty
  | .dateV _ _ _ => true
  | .listV vs => !vs.isEmpty

/-- Python `isinstance(v, list)`. -/
def isList : YamlValue → Bool
  | .listV _ => true
  | _ => false

/-- Parsed YAML frontmatter: a mapping from field names to values. -/
abbrev Frontmatter := List (String × YamlValue)

/-- Key membership in the frontmatter mapping (Python `field in metadata`). -/
def fmLookup : Frontmatter → String → Option YamlValue
  | [], _ => none
  | (k, v) :: rest, key => if k = key then some v else fmLookup rest key

/-- Python `key in metadata` for the frontmatter dict. -/
def hasKey (md : Frontmatter) (k : String) : Bool := (fmLookup md k).isSome

/-! ## validate_metadata.py : tables and messages -/

/-- Required fields of the "ssot" category (`REQUIRED_FIELDS["ssot"]`). -/
def ssotFields : List String :=
  ["title", "version", "updated", "scope", "category", "subcategory", "domain"]

/-- The `REQUIRED_FIELDS` table of validate_metadata.py. -/
def REQUIRED_FIELDS : List (String × List String) :=
  [("ssot", ssotFields),
   ("pattern", ["title", "version", "updated", "scope", "category", "domain"]),
   ("plan", ["title", "version", "updated", "scope", "category"]),
   ("reference", ["title", "scope", "category"]),
   ("archive", ["title", "version", "updated", "scope", "category", "archived_date"])]

/-- The `CATEGORY_PREFIXES` list of validate_metadata.py. -/
def CATEGORY_PREFIXES : List String :=
  ["ssot_", "pattern_", "plan_", "reference_", "archive_", "troubleshoot_", "commit_log"]

/-- Error message of the failed filename-prefix check. -/
def prefixMsg : String :=
  "Filename should start with one of: " ++ joinComma CATEGORY_PREFIXES

/-- Error message of the failed `.md`-extension check. -/
def mdMsg : String := "Filename should end with .md"

/-- Error message appended when frontmatter is missing or unparsable. -/
def fmMissingMsg : String :=
  "Missing or invalid YAML frontmatter (should be between --- markers)"

/-- Combined error message listing the missing required fields. -/
def missingFieldsMsg (missing : List String) : String :=
  "Missing required fields: " ++ joinComma missing

/-- Error message for a malformed `version` value. -/
def invalidVersionMsg (v : YamlValue) : String :=
  "Invalid version format: " ++ pyStr v ++ " (should be x.y.z)"

/-- Warning message for a malformed `updated` value. -/
def updatedWarnMsg (s : String) : String :=
  "Updated timestamp should be ISO8601 format: " ++ s

/-- Error message for a non-list `domain` value. -/
def domainErrMsg : String := "Domain field should be an array/list"

/-- Warning message for an ssot file without a `changelog` key. -/
def changelogWarnMsg : String :=
  "SSOT files should include a changelog section in frontmatter"

/-! ## validate_metadata.py : the individual checks -/

/-- The `validate_naming` function: prefix check then `.md` check, each
failed check appending one error string. -/
def validate_naming (filename : String) : List String :=
  (if CATEGORY_PREFIXES.any (fun p => pyStartsWith filename p) then [] else [prefixMsg]) ++
  (if pyEndsWith filename ".md" then [] else [mdMsg])

/-- Consume the remaining run of ASCII digits. -/
def dropDigits : List Char → List Char
  | [] => []
  | c :: rest => if c.isDigit then dropDigits rest else c :: rest

/-- Consume one-or-more digits (`\d+` with greedy munch); `none` when the
first character is not a digit. -/
def parseDigits1 : List Char → Option (List Char)
  | [] => none
  | c :: rest => if c.isDigit then some (dropDigits rest) else none

/-- Consume exactly the literal character `c`. -/
def parseChar (c : Char) : List Char → Option (List Char)
  | [] => none
  | d :: rest => if d = c then some rest else none

/-- Python `re.match` with pattern `^\d+\.\d+\.\d+$` as a Boolean: three runs of
digits separated by literal dots, followed by the end of the string or by
a single trailing newline (Python `$` also matches just before a final
newline). -/
def matchVersionCode (s : String) : Bool :=
  match ((((parseDigits1 s.data).bind (parseChar '.')).bind parseDigits1).bind
      (parseChar '.')).bind parseDigits1 with
  | some rest => rest.isEmpty || rest == ['\n']
  | none => false

/-- Modelled from the words of the spec: the string form of the value must be exactly
`integer.integer.integer` with no prefix or suffix characters at all.
Used only to compare the wording of the claim with the source behaviour. -/
def matchVersionExact (s : String) : Bool :=
  match ((((parseDigits1 s.data).bind (parseChar '.')).bind parseDigits1).bind
      (parseChar '.')).bind parseDigits1 with
  | some rest => rest.isEmpty
  | none => false

/-- The `validate_version` function: a falsy value is rejected outright,
otherwise the version regex is applied to `str(version)`. -/
def validate_version (version : YamlValue) : Bool :=
  if truthy version then matchVersionCode (pyStr version) else false

/-- Python `re.match` with pattern `^\d{4}-\d{2}-\d{2}` as a Boolean: the string
must begin with four digits, a dash, two digits, a dash, two digits. -/
def matchDatePrefix (s : String) : Bool :=
  match s.data with
  | y1 :: y2 :: y3 :: y4 :: c1 :: m1 :: m2 :: c2 :: d1 :: d2 :: _ =>
    y1.isDigit && y2.isDigit && y3.isDigit && y4.isDigit && (c1 == '-') &&
    m1.isDigit && m2.isDigit && (c2 == '-') && d1.isDigit && d2.isDigit
  | _ => false

/-- Return the characters before the first occurrence of `pat`, or `none`
when `pat` does not occur (the non-greedy `(.*?)` of the frontmatter
regex). -/
def splitAtFirst (pat : List Char) : List Char → Option (List Char)
  | [] => if pat.isPrefixOf ([] : List Char) then some [] else none
  | c :: rest =>
    if pat.isPrefixOf (c :: rest) then some []
    else (splitAtFirst pat rest).map (fun pre => c :: pre)

/-- The regex part of `extract_frontmatter`:
`re.match` with pattern `^---\n(.*?)\n---\n` in DOTALL mode, returning the text
of the first capture group. -/
def fmBlock (content : String) : Option String :=
  if "---\n".data.isPrefixOf content.data then
    (splitAtFirst "\n---\n".data (content.data.drop 4)).map String.mk
  else none

/-- The `extract_frontmatter` function.  The YAML parser itself is not
modelled: it is passed in as `parse`, whose `none` result stands for a
`yaml.YAMLError` (and also for YAML documents that are not mappings, which
the claims do not concern). -/
def extract_frontmatter (parse : String → Option Frontmatter)
    (content : String) : Option Frontmatter :=
  match fmBlock content with
  | none => none
  | some inner => parse inner

/-- Category resolution of validate_metadata.py lines 91-95: the first
matching prefix, with trailing underscores stripped; `none` when no prefix
matches. -/
def resolveCategory (name : String) : Option String :=
  (CATEGORY_PREFIXES.find? (fun p => pyStartsWith name p)).map rstripUnderscore

/-- `REQUIRED_FIELDS.get(category, REQUIRED_FIELDS["ssot"])` where
`category` may be `None`. -/
def requiredGet (category : Option String) : List String :=
  match category with
  | some c => (assocLookup REQUIRED_FIELDS c).getD ssotFields
  | none => ssotFields

/-- `[field for field in required if field not in metadata]` for the
resolved category. -/
def missingFieldsOfCat (category : Option String) (md : Frontmatter) : List String :=
  (requiredGet category).filter (fun f => !hasKey md f)

/-- The single combined missing-required-fields error (empty list when no
field is missing), validate_metadata.py lines 99-101. -/
def missingErrsPart (category : Option String) (md : Frontmatter) : List String :=
  let missing := missingFieldsOfCat category md
  if missing.isEmpty then [] else [missingFieldsMsg missing]

/-- The version-check errors (lines 104-106). -/
def versionErrsOf (md : Frontmatter) : List String :=
  match fmLookup md "version" with
  | some v => if validate_version v then [] else [invalidVersionMsg v]
  | none => []

/-- The updated-timestamp warnings (lines 109-113). -/
def updatedWarnsOf (md : Frontmatter) : List String :=
  match fmLookup md "updated" with
  | some v => if matchDatePrefix (pyStr v) then [] else [updatedWarnMsg (pyStr v)]
  | none => []

/-- The domain-type errors (lines 116-118). -/
def domainErrsOf (md : Frontmatter) : List String :=
  match fmLookup md "domain" with
  | some v => if isList v then [] else [domainErrMsg]
  | none => []

/-- The ssot-changelog warnings (lines 121-122). -/
def changelogWarnsOf (category : Option String) (md : Frontmatter) : List String :=
  if category = some "ssot" then
    (if hasKey md "changelog" then [] else [changelogWarnMsg])
  else []

/-- The full error list accumulated by `validate_metadata` once frontmatter
parsed: naming errors, then the combined missing-fields error, then the
version error, then the domain error, in source order. -/
def errorsOf (name : String) (md : Frontmatter) : List String :=
  validate_naming name ++ missingErrsPart (resolveCategory name) md ++
    versionErrsOf md ++ domainErrsOf md

/-- The warning list accumulated by `validate_metadata`: the updated
warning then the changelog warning, in source order. -/
def warningsOf (name : String) (md : Frontmatter) : List String :=
  updatedWarnsOf md ++ changelogWarnsOf (resolveCategory name) md

/-- The `validate_metadata` function after the existence check and file
read: `name` is `path.name`, `content` the file text.  Returns the Boolean
result together with the printed error and warning groups.  When
`extract_frontmatter` yields nothing, the frontmatter error is appended to
the naming errors already collected and the function returns immediately
(lines 85-88); otherwise the remaining checks run and the result is
`len(errors) == 0` (line 125). -/
def validate_metadata (name content : String)
    (parse : String → Option Frontmatter) : Bool × List String × List String :=
  match extract_frontmatter parse content with
  | none => (false, validate_naming name ++ [fmMissingMsg], [])
  | some md => ((errorsOf name md).isEmpty, errorsOf name md, warningsOf name md)

/-! ## generate_template.py : templates and rendering

A Python format string is embedded as a list of segments: literal text and
named placeholders (`{name}` in the source).  The literal text is
transcribed verbatim from the `TEMPLATES` dict of generate_template.py. -/

inductive Segment where
  | lit (s : String) : Segment
  | hole (k : String) : Segment
deriving DecidableEq

/-- The "ssot" template (generate_template.py lines 14-62). -/
def ssotTemplate : List Segment :=
  [.lit "---\ntitle: ", .hole "title",
   .lit "\nversion: 0.1.0\nupdated: ", .hole "timestamp",
   .lit "\nscope: ", .hole "scope",
   .lit "\ncategory: ", .hole "category",
   .lit "\nsubcategory: ", .hole "subcategory",
   .lit "\ndomain: [", .hole "domain",
   .lit "]\napplicability: ", .hole "applicability",
   .lit "\nchangelog:\n  - 0.1.0 (", .hole "date",
   .lit "): Initial creation.\n---\n\n## Purpose\n", .hole "purpose",
   .lit "\n\n## Overview\n", .hole "overview",
   .lit "\n\n## Key Components\n\n### Component 1\nDescription...\n\n### Component 2\nDescription...\n\n## Current State\n\n### What Works\n- Item 1\n- Item 2\n\n### Known Limitations\n- Limitation 1\n- Limitation 2\n\n## Related SSOTs\n- `related_ssot_1.md` - Description\n- `related_ssot_2.md` - Description\n\n## Next Steps\n- [ ] Task 1\n- [ ] Task 2\n\n## References\n- Internal doc references\n- External resources\n"]

/-- The "pattern" template (lines 64-110). -/
def patternTemplate : List Segment :=
  [.lit "---\ntitle: ", .hole "title",
   .lit "\nversion: 0.1.0\nupdated: ", .hole "timestamp",
   .lit "\nscope: ", .hole "scope",
   .lit "\ncategory: pattern\nsubcategory: ", .hole "subcategory",
   .lit "\ndomain: [", .hole "domain",
   .lit "]\napplicability: ", .hole "applicability",
   .lit "\nchangelog:\n  - 0.1.0 (", .hole "date",
   .lit "): Initial creation.\n---\n\n## Purpose\n", .hole "purpose",
   .lit "\n\n## Pattern Description\n", .hole "description",
   .lit "\n\n## When to Apply\n- Scenario 1\n- Scenario 2\n\n## Implementation\n\n### Approach\nSteps to implement this pattern...\n\n### Example\n```python\n# Code example\n```\n\n## Trade-offs\n\n### Benefits\n- Benefit 1\n- Benefit 2\n\n### Costs\n- Cost 1\n- Cost 2\n\n## Related Patterns\n- `related_pattern_1.md`\n- `related_pattern_2.md`\n"]

/-- The "reference" template (lines 112-156). -/
def referenceTemplate : List Segment :=
  [.lit "---\ntitle: ", .hole "title",
   .lit "\nscope: ", .hole "scope",
   .lit "\ncategory: reference\nsubcategory: ", .hole "subcategory",
   .lit "\ndomain: [", .hole "domain",
   .lit "]\n---\n\n## Purpose\n", .hole "purpose",
   .lit "\n\n## Quick Reference\n\n### Category 1\n| Item | Description | Example |\n|------|-------------|---------|\n| Item1 | Desc | `example` |\n\n### Category 2\nDetails...\n\n## Detailed Documentation\n\n### Section 1\nContent...\n\n### Section 2\nContent...\n\n## Examples\n\n### Example 1: ", .hole "example_name",
   .lit "\n```\nCode or configuration example\n```\n\n### Example 2: ", .hole "example_name",
   .lit "\n```\nCode or configuration example\n```\n\n## Additional Resources\n- Link 1\n- Link 2\n"]

/-- The "plan" template (lines 158-202). -/
def planTemplate : List Segment :=
  [.lit "---\ntitle: ", .hole "title",
   .lit "\nversion: 0.1.0\nupdated: ", .hole "timestamp",
   .lit "\nscope: ", .hole "scope",
   .lit "\ncategory: plan\nsubcategory: ", .hole "subcategory",
   .lit "\nstatus: draft\nchangelog:\n  - 0.1.0 (", .hole "date",
   .lit "): Initial plan creation.\n---\n\n## Objective\n", .hole "objective",
   .lit "\n\n## Background\n", .hole "background",
   .lit "\n\n## Proposed Approach\n\n### Phase 1: ", .hole "phase_name",
   .lit "\n- Task 1\n- Task 2\n\n### Phase 2: ", .hole "phase_name",
   .lit "\n- Task 1\n- Task 2\n\n## Success Criteria\n- [ ] Criterion 1\n- [ ] Criterion 2\n\n## Risks & Mitigations\n| Risk | Impact | Mitigation |\n|------|--------|------------|\n| Risk 1 | High | Mitigation strategy |\n\n## Timeline\n- Phase 1: Dates\n- Phase 2: Dates\n\n## Related Docs\n- `related_ssot.md`\n- `related_pattern.md`\n"]

/-- The `TEMPLATES` dict of generate_template.py, in source key order. -/
def TEMPLATES : List (String × List Segment) :=
  [("ssot", ssotTemplate), ("pattern", patternTemplate),
   ("reference", referenceTemplate), ("plan", planTemplate)]

/-- Insert-or-overwrite into an association list, preserving insertion
order, as assignment into a Python dict. -/
def dictSet {α : Type} : List (String × α) → String → α → List (String × α)
  | [], k, v => [(k, v)]
  | (k0, v0) :: rest, k, v =>
    if k0 = k then (k, v) :: rest else (k0, v0) :: dictSet rest k v

/-- Python `d.update(kw)`: every key of `kw` is set in `d`, in order. -/
def dictUpdate {α : Type} (d : List (String × α)) (kw : List (String × α)) :
    List (String × α) :=
  kw.foldl (fun acc p => dictSet acc p.1 p.2) d

/-- The built-in defaults of `generate_template` (lines 224-240).  The
timestamp and date are computed at call time in the source; here they are
the explicit arguments `ts` and `date`. -/
def defaultParams (category ts date : String) : List (String × String) :=
  [("title", "New Memory"),
   ("timestamp", ts),
   ("date", date),
   ("scope", "to-be-defined"),
   ("category", category),
   ("subcategory", "general"),
   ("domain", "domain1, domain2"),
   ("applicability", "specific area or \x27all\x27"),
   ("purpose", "Brief statement of purpose..."),
   ("overview", "High-level overview..."),
   ("description", "Detailed description..."),
   ("objective", "What this plan aims to achieve..."),
   ("background", "Context and motivation..."),
   ("phase_name", "Phase Name"),
   ("example_name", "Example Name")]

/-- Render a format string: substitute each placeholder from `params`; a
placeholder with no value raises an uncaught Python `KeyError`, modelled as the
error message the process would print. -/
def renderAux (params : List (String × String)) :
    List Segment → String → Except (List String) String
  | [], acc => .ok acc
  | .lit s :: rest, acc => renderAux params rest (acc ++ s)
  | .hole k :: rest, acc =>
    match assocLookup params k with
    | some v => renderAux params rest (acc ++ v)
    | none => .error ["KeyError: " ++ k]

/-- The `generate_template` function (lines 216-243): unknown category
reports the valid category list (and the process exits nonzero, modelled
by the error branch); otherwise the category template is rendered with the
defaults updated by the key/value overrides of the caller. -/
def generate_template (category ts date : String)
    (kwargs : List (String × String)) : Except (List String) String :=
  match assocLookup TEMPLATES category with
  | none => .error ["ERROR: Invalid category: " ++ category,
      "Valid categories: " ++ joinComma (TEMPLATES.map Prod.fst)]
  | some t => renderAux (dictUpdate (defaultParams category ts date) kwargs) t ""

/-! ## generate_template.py : command line handling -/

/-- Quote characters stripped from override values. -/
def isQuoteChar (c : Char) : Bool := c == '\x27' || c == '"'

/-- Python `value.strip` with the two quote characters: remove every leading and every trailing
single- or double-quote character (in any combination); interior
characters are untouched. -/
def stripQuotes (s : String) : String :=
  String.mk (((s.data.dropWhile isQuoteChar).reverse.dropWhile isQuoteChar).reverse)

/-- Modelled from the words of the spec (claim C5): when the value is surrounded
by single or double quotes, exactly the one outer quote character is
stripped from each end; otherwise the value is unchanged.  Used only to
compare the wording of the claim with the source behaviour. -/
def stripOuterQuote (s : String) : String :=
  match s.data with
  | c :: d :: rest =>
    if isQuoteChar c && ((d :: rest).getLast? == some c) then
      String.mk ((d :: rest).dropLast)
    else s
  | _ => s

/-- Python `arg.split` at the first equals sign, assuming one occurs. -/
def splitOnceEq : List Char → List Char × List Char
  | [] => ([], [])
  | c :: rest =>
    if c = '=' then ([], rest)
    else ((splitOnceEq rest).1.cons c, (splitOnceEq rest).2)

/-- The trailing-argument loop of `main` (lines 264-268): every argument
containing an equals sign contributes an override, with the value
quote-stripped; arguments without one are ignored. -/
def parseParams (args : List String) : List (String × String) :=
  args.foldl
    (fun params arg =>
      if '=' ∈ arg.data then
        dictSet params (String.mk (splitOnceEq arg.data).1)
          (stripQuotes (String.mk (splitOnceEq arg.data).2))
      else params)
    []

/-- The usage text printed when fewer than two real arguments are given. -/
def usageMsgs : List String :=
  ["Usage: generate_template.py <category> <output_filename> [key=value ...]",
   "",
   "Categories: ssot, pattern, reference, plan",
   "",
   "Examples:",
   "  generate_template.py ssot ssot_analytics_new_2026-01-20.md \\",
   "      title=\x27New Analytics SSOT\x27 domain=\x27analytics\x27 subcategory=\x27metrics\x27",
   "",
   "  generate_template.py pattern pattern_caching_strategy_2026-01.md \\",
   "      title=\x27Caching Strategy Pattern\x27 domain=\x27performance\x27"]

/-- The `main` function of generate_template.py (lines 246-282) as a
transition on a file-system model (an association list from path to
content).  `argv` includes the program name in position 0, as
`sys.argv` does; `ts` and `date` are the call-time timestamp and date.
Returns the resulting file system, the process exit code, and the printed
lines.  The leading emoji bytes of the two confirmation prints are not
modelled. -/
def runMain (fs : List (String × String)) (argv : List String) (ts date : String) :
    List (String × String) × Nat × List String :=
  if argv.length < 3 then (fs, 1, usageMsgs)
  else
    let category := argv.getD 1 ""
    let output_file := argv.getD 2 ""
    match generate_template category ts date (parseParams (argv.drop 3)) with
    | .error msgs => (fs, 1, msgs)
    | .ok content =>
      if (assocLookup fs output_file).isSome then
        (fs, 1, ["ERROR: File already exists: " ++ output_file,
                 "Use a different filename or remove the existing file first."])
      else
        (dictSet fs output_file content, 0,
         ["Created " ++ category ++ " memory: " ++ output_file,
          "Edit the file to fill in placeholders and add content."])

/-! ## Auxiliary notions used by the theorems -/

/-- An unresolved-placeholder marker character (`\x7b` or `\x7d`). -/
def isBraceChar (c : Char) : Bool := c == '\x7b' || c == '\x7d'

/-- Whether a string contains a placeholder-marker brace. -/
def hasBrace (s : String) : Bool := s.data.any isBraceChar

/-- The literal texts of a template. -/
def litsOf : List Segment → List String
  | [] => []
  | .lit s :: rest => s :: litsOf rest
  | .hole _ :: rest => litsOf rest

/-- The placeholder names of a template. -/
def holesOf : List Segment → List String
  | [] => []
  | .lit _ :: rest => holesOf rest
  | .hole k :: rest => k :: holesOf rest


/-! ## Concrete scenario from the specification (used by claim C8) -/

/-- Frontmatter of the spec scenario `ssot_test_2026-01-01.md`: the YAML
mapping parsed from `c8inner` (unquoted `0.1.0` parses as a string,
`2026-01-01` as a date, `[x]` as a list). -/
def c8md : Frontmatter :=
  [("title", .strV "X"), ("version", .strV "0.1.0"), ("updated", .dateV 2026 1 1),
   ("scope", .strV "all"), ("category", .strV "ssot"), ("subcategory", .strV "x"),
   ("domain", .listV [.strV "x"])]

/-- The YAML text between the `---` markers in the scenario file. -/
def c8inner : String :=
  "title: X\nversion: 0.1.0\nupdated: 2026-01-01\nscope: all\ncategory: ssot\nsubcategory: x\ndomain: [x]"

/-- YAML-parser oracle for the scenario: it parses exactly the scenario
text to the scenario mapping. -/
def c8parse : String → Option Frontmatter :=
  fun s => if s = c8inner then some c8md else none

/-- Full file content of the scenario input file. -/
def c8content : String := "---\n" ++ c8inner ++ "\n---\n"

/-! ## Helper lemmas -/

/-- Two strings whose character lists start differently are different. -/
theorem ne_of_head_ne {a b : String} {c d : Char} (hc : a.data.head? = some c)
    (hd : b.data.head? = some d) (hne : c ≠ d) : a ≠ b := by
  intro e
  rw [e] at hc
  rw [hc] at hd
  exact hne (Option.some.inj hd)

/-- The combined missing-fields message always starts with `M`. -/
theorem missingMsg_head (m : List String) :
    (missingFieldsMsg m).data.head? = some 'M' := by
  rw [missingFieldsMsg, String.data_append, List.head?_append]
  have h : "Missing required fields: ".data.head? = some 'M' := by decide
  rw [h]
  rfl

/-- The version-format message always starts with `I`. -/
theorem versionMsg_head (v : YamlValue) :
    (invalidVersionMsg v).data.head? = some 'I' := by
  rw [invalidVersionMsg, String.data_append, String.data_append,
    List.head?_append, List.head?_append]
  have h : "Invalid version format: ".data.head? = some 'I' := by decide
  rw [h]
  rfl

/-- The missing-fields message differs from both naming messages. -/
theorem missingMsg_not_mem_naming (m : List String) (name : String) :
    missingFieldsMsg m ∉ validate_naming name := by
  intro h
  rw [validate_naming] at h
  have hpf : prefixMsg.data.head? = some 'F' := by decide
  have hmf : mdMsg.data.head? = some 'F' := by decide
  have hp : missingFieldsMsg m ≠ prefixMsg :=
    ne_of_head_ne (missingMsg_head m) hpf (by decide)
  have hm : missingFieldsMsg m ≠ mdMsg :=
    ne_of_head_ne (missingMsg_head m) hmf (by decide)
  rcases List.mem_append.mp h with h1 | h1
  · split at h1
    · exact absurd h1 (List.not_mem_nil _)
    · exact hp (List.mem_singleton.mp h1)
  · split at h1
    · exact absurd h1 (List.not_mem_nil _)
    · exact hm (List.mem_singleton.mp h1)

/-- The missing-fields message never appears among the version errors. -/
theorem missingMsg_not_mem_version (m : List String) (md : Frontmatter) :
    missingFieldsMsg m ∉ versionErrsOf md := by
  intro h
  rw [versionErrsOf] at h
  split at h
  · split at h
    · exact absurd h (List.not_mem_nil _)
    · exact ne_of_head_ne (missingMsg_head m) (versionMsg_head _) (by decide)
        (List.mem_singleton.mp h)
  · exact absurd h (List.not_mem_nil _)

/-- The missing-fields message never appears among the domain errors. -/
theorem missingMsg_not_mem_domain (m : List String) (md : Frontmatter) :
    missingFieldsMsg m ∉ domainErrsOf md := by
  intro h
  rw [domainErrsOf] at h
  have hdd : domainErrMsg.data.head? = some 'D' := by decide
  have hd : missingFieldsMsg m ≠ domainErrMsg :=
    ne_of_head_ne (missingMsg_head m) hdd (by decide)
  split at h
  · split at h
    · exact absurd h (List.not_mem_nil _)
    · exact hd (List.mem_singleton.mp h)
  · exact absurd h (List.not_mem_nil _)

/-! ## Claim theorems -/

/-- C1: for every input file whose frontmatter parses successfully,
`validate_metadata` returns true if and only if the accumulated error list
(naming, required-field, version, domain checks) is empty; warnings are
collected separately and the Boolean is a function of the error list
alone, so they never affect it. -/
theorem claim_C1 (name content : String) (parse : String → Option Frontmatter)
    (md : Frontmatter) (h : extract_frontmatter parse content = some md) :
    (validate_metadata name content parse).1 = true ↔
      (validate_metadata name content parse).2.1 = [] := by
  simp only [validate_metadata, h]
  exact List.isEmpty_iff

/-- Witness for C1 at the spec scenario input. -/
theorem claim_C1_witness :
    extract_frontmatter c8parse c8content = some c8md ∧
    ((validate_metadata "notes.md" c8content c8parse).1 = true ↔
      (validate_metadata "notes.md" c8content c8parse).2.1 = []) :=
  ⟨rfl, claim_C1 "notes.md" c8content c8parse c8md rfl⟩

/-- C2: when the parsed frontmatter lacks required fields of the resolved
category, the error report contains the single combined message listing
exactly the missing names (in the order of the required set, since
`missingFieldsOfCat` filters the required list), that message occurs in
the report exactly once, the later version and domain checks still
contribute, and the overall result is failure. -/
theorem claim_C2 (name content : String) (parse : String → Option Frontmatter)
    (md : Frontmatter) (hext : extract_frontmatter parse content = some md)
    (hmiss : missingFieldsOfCat (resolveCategory name) md ≠ []) :
    validate_metadata name content parse =
      (false,
       validate_naming name ++
         [missingFieldsMsg (missingFieldsOfCat (resolveCategory name) md)] ++
         versionErrsOf md ++ domainErrsOf md,
       warningsOf name md) ∧
    (validate_metadata name content parse).2.1.count
      (missingFieldsMsg (missingFieldsOfCat (resolveCategory name) md)) = 1 := by
  have hpart : missingErrsPart (resolveCategory name) md =
      [missingFieldsMsg (missingFieldsOfCat (resolveCategory name) md)] := by
    rw [missingErrsPart]
    cases hm : missingFieldsOfCat (resolveCategory name) md with
    | nil => exact absurd hm hmiss
    | cons a l => simp
  have herr : errorsOf name md =
      validate_naming name ++
        [missingFieldsMsg (missingFieldsOfCat (resolveCategory name) md)] ++
        versionErrsOf md ++ domainErrsOf md := by
    rw [errorsOf, hpart]
  have hfalse : (errorsOf name md).isEmpty = false := by
    rw [herr]
    simp [List.isEmpty_iff]
  constructor
  · simp only [validate_metadata, hext]
    rw [hfalse, herr]
  · simp only [validate_metadata, hext]
    rw [herr]
    simp only [List.count_append]
    rw [List.count_eq_zero.mpr (missingMsg_not_mem_naming _ name),
      List.count_eq_zero.mpr (missingMsg_not_mem_version _ md),
      List.count_eq_zero.mpr (missingMsg_not_mem_domain _ md)]
    simp

/-- Witness for C2: a plan file whose frontmatter has only a title. -/
theorem claim_C2_witness :
    extract_frontmatter (fun _ => some [("title", .strV "T")]) "---\na\n---\n" =
      some [("title", .strV "T")] ∧
    missingFieldsOfCat (resolveCategory "plan_x.md") [("title", .strV "T")] ≠ [] ∧
    (validate_metadata "plan_x.md" "---\na\n---\n" (fun _ => some [("title", .strV "T")]) =
      (false,
       validate_naming "plan_x.md" ++
         [missingFieldsMsg (missingFieldsOfCat (resolveCategory "plan_x.md")
           [("title", .strV "T")])] ++
         versionErrsOf [("title", .strV "T")] ++ domainErrsOf [("title", .strV "T")],
       warningsOf "plan_x.md" [("title", .strV "T")]) ∧
     (validate_metadata "plan_x.md" "---\na\n---\n"
         (fun _ => some [("title", .strV "T")])).2.1.count
       (missingFieldsMsg (missingFieldsOfCat (resolveCategory "plan_x.md")
         [("title", .strV "T")])) = 1) :=
  ⟨rfl, by decide,
   claim_C2 "plan_x.md" "---\na\n---\n" (fun _ => some [("title", .strV "T")])
     [("title", .strV "T")] rfl (by decide)⟩

/-- C3, counterexample to the claim as stated: the version check is
`re.match` of the pattern `^\d+\.\d+\.\d+$` against str(version), and in Python `$` also
matches just before a single trailing newline, so the string form
`"1.2.3\n"` is accepted although it does not match the exact pattern
with no suffix characters. -/
theorem claim_C3_cex :
    validate_version (.strV "1.2.3\n") = true ∧
    matchVersionExact (pyStr (.strV "1.2.3\n")) = false := by decide

/-- C3, amended: when a `version` field is present, the check accepts the
value if and only if its string form matches `integer.integer.integer`
with no prefix characters and no suffix except an optional single trailing
newline (the initial falsiness guard never changes the outcome); in
particular "1.2.3" passes while "1.2", "v1.2.3" and "1.2.3-beta" fail. -/
theorem claim_C3 :
    (∀ v : YamlValue, validate_version v = matchVersionCode (pyStr v)) ∧
    validate_version (.strV "1.2.3") = true ∧
    validate_version (.strV "1.2") = false ∧
    validate_version (.strV "v1.2.3") = false ∧
    validate_version (.strV "1.2.3-beta") = false := by
  refine ⟨?_, by decide, by decide, by decide, by decide⟩
  intro v
  cases v with
  | nullV => decide
  | boolV b => cases b <;> decide
  | intV n =>
    by_cases h : n = 0
    · subst h; decide
    · simp [validate_version, truthy, h]
  | strV s =>
    obtain ⟨l⟩ := s
    cases l with
    | nil => decide
    | cons c cs => rfl
  | dateV y m d => rfl
  | listV vs =>
    cases vs with
    | nil => decide
    | cons v vs2 => rfl

/-- C4, counterexample to the claim as stated: for the file `notes.txt`
with content `hello` (no frontmatter), the report contains the two naming
errors in addition to the frontmatter error, so it is not true that no
other check contributes to the report. -/
theorem claim_C4_cex :
    validate_metadata "notes.txt" "hello" (fun _ => none) =
      (false, [prefixMsg, mdMsg, fmMissingMsg], []) ∧
    (validate_metadata "notes.txt" "hello" (fun _ => none)).2.1 ≠ [fmMissingMsg] := by
  decide

/-- C4, amended: when the content has no parseable frontmatter block,
`validate_metadata` reports the missing/invalid-frontmatter error and
returns false without evaluating any of the later rules (no
required-field, version, updated, domain, or changelog check runs, and no
warnings are produced); the naming check, which runs before frontmatter
extraction, still contributes its errors to the report. -/
theorem claim_C4 (name content : String) (parse : String → Option Frontmatter)
    (h : extract_frontmatter parse content = none) :
    validate_metadata name content parse =
      (false, validate_naming name ++ [fmMissingMsg], []) := by
  simp only [validate_metadata, h]

/-- Witness for C4 at a concrete frontmatter-less input. -/
theorem claim_C4_witness :
    extract_frontmatter (fun _ => none) "just a body" = none ∧
    validate_metadata "x.md" "just a body" (fun _ => none) =
      (false, validate_naming "x.md" ++ [fmMissingMsg], []) :=
  ⟨rfl, claim_C4 "x.md" "just a body" (fun _ => none) rfl⟩

/-- Rebuilding a string from its own character list is the identity. -/
theorem mk_data_eq (s : String) : String.mk s.data = s := by
  obtain ⟨l⟩ := s
  rfl

/-- Splitting at the first equals sign of `l ++ eq :: r` yields `(l, r)` when
`l` itself contains no equals sign (Python one-shot split). -/
theorem splitOnceEq_append (l r : List Char) (h : '=' ∉ l) :
    splitOnceEq (l ++ '=' :: r) = (l, r) := by
  induction l with
  | nil => simp [splitOnceEq]
  | cons c cs ih =>
    have hc : c ≠ '=' := fun e => h (by rw [e]; exact List.mem_cons_self _ _)
    have hcs : '=' ∉ cs := fun hm => h (List.mem_cons_of_mem _ hm)
    simp [splitOnceEq, hc, ih hcs]

/-- C5, counterexample to the claim as stated: the Python strip call
removes every leading and trailing quote character, not just the one
outer layer, so the doubly-quoted value `""Hi""` becomes `Hi`, while
stripping exactly the outer quote character would give `"Hi"`. -/
theorem claim_C5_cex :
    parseParams ["title=\x22\x22Hi\x22\x22"] = [("title", "Hi")] ∧
    parseParams ["title=\x22\x22Hi\x22\x22"] ≠
      [("title", stripOuterQuote "\x22\x22Hi\x22\x22")] := by decide

/-- C5, amended: for a trailing `key=value` argument, every leading and
every trailing single- or double-quote character of the value is stripped
(in any combination and depth), and the retained characters are a
contiguous interior slice of the original value, used verbatim (no
unquoting of interior quote characters). -/
theorem claim_C5 (k v : String) (h : '=' ∉ k.data) :
    parseParams [k ++ "=" ++ v] = [(k, stripQuotes v)] ∧
    (stripQuotes v).data <:+: v.data := by
  constructor
  · have he : "=".data = ['='] := by decide
    have hdata : (k ++ "=" ++ v).data = k.data ++ '=' :: v.data := by
      rw [String.data_append, String.data_append, he, List.append_assoc]
      rfl
    have hmem : '=' ∈ (k ++ "=" ++ v).data := by
      rw [hdata]
      exact List.mem_append_right _ (List.mem_cons_self _ _)
    simp only [parseParams, List.foldl]
    rw [if_pos hmem, hdata, splitOnceEq_append k.data v.data h]
    simp only [dictSet, mk_data_eq]
  · have h1 : v.data.dropWhile isQuoteChar <:+ v.data := List.dropWhile_suffix _
    have h2 : (v.data.dropWhile isQuoteChar).reverse.dropWhile isQuoteChar <:+
        (v.data.dropWhile isQuoteChar).reverse := List.dropWhile_suffix _
    have h3 : ((v.data.dropWhile isQuoteChar).reverse.dropWhile isQuoteChar).reverse <+:
        (v.data.dropWhile isQuoteChar).reverse.reverse := List.reverse_prefix.mpr h2
    rw [List.reverse_reverse] at h3
    exact h3.isInfix.trans h1.isInfix

/-- Witness for C5 at a concrete quoted override. -/
theorem claim_C5_witness :
    '=' ∉ "title".data ∧
    (parseParams ["title" ++ "=" ++ "\x27Hello\x27"] =
        [("title", stripQuotes "\x27Hello\x27")] ∧
      (stripQuotes "\x27Hello\x27").data <:+: "\x27Hello\x27".data) :=
  ⟨by decide, claim_C5 "title" "\x27Hello\x27" (by decide)⟩

/-- Brace detection distributes over string concatenation. -/
theorem hasBrace_append (a b : String) :
    hasBrace (a ++ b) = (hasBrace a || hasBrace b) := by
  simp [hasBrace, String.data_append, List.any_append]

/-- A successful association-list lookup returns a stored pair. -/
theorem assocLookup_mem {α : Type} :
    ∀ (params : List (String × α)) (k : String) (v : α),
      assocLookup params k = some v → (k, v) ∈ params := by
  intro params
  induction params with
  | nil => intro k v h; simp [assocLookup] at h
  | cons p rest ih =>
    intro k v h
    obtain ⟨k0, v0⟩ := p
    rw [assocLookup] at h
    split at h
    · rename_i heq
      obtain ⟨rfl⟩ : v0 = v := Option.some.inj h
      rw [← heq]
      exact List.mem_cons_self _ _
    · exact List.mem_cons_of_mem _ (ih k v h)

/-- Rendering succeeds with brace-free output when the literal
texts of the template are brace-free, every placeholder has a value, and all stored values
are brace-free. -/
theorem renderAux_ok (params : List (String × String))
    (hvals : ∀ kv ∈ params, hasBrace kv.2 = false) :
    ∀ (t : List Segment) (acc : String),
      (∀ s ∈ litsOf t, hasBrace s = false) →
      (∀ k ∈ holesOf t, (assocLookup params k).isSome = true) →
      hasBrace acc = false →
      ∃ out, renderAux params t acc = .ok out ∧ hasBrace out = false := by
  intro t
  induction t with
  | nil => intro acc _ _ hacc; exact ⟨acc, rfl, hacc⟩
  | cons seg rest ih =>
    intro acc hlits hholes hacc
    cases seg with
    | lit s =>
      have hs : hasBrace s = false := hlits s (by simp [litsOf])
      have hacc2 : hasBrace (acc ++ s) = false := by
        rw [hasBrace_append, hacc, hs]; rfl
      exact ih (acc ++ s) (fun s2 h2 => hlits s2 (by simp [litsOf]; exact Or.inr h2))
        (fun k2 h2 => hholes k2 (by simpa [holesOf] using h2)) hacc2
    | hole k =>
      have hk : (assocLookup params k).isSome = true := hholes k (by simp [holesOf])
      obtain ⟨v, hv⟩ : ∃ v, assocLookup params k = some v := by
        cases hvv : assocLookup params k with
        | none => rw [hvv] at hk; cases hk
        | some v => exact ⟨v, rfl⟩
      have hbv : hasBrace v = false := hvals (k, v) (assocLookup_mem params k v hv)
      have hacc2 : hasBrace (acc ++ v) = false := by
        rw [hasBrace_append, hacc, hbv]; rfl
      simp only [renderAux, hv]
      exact ih (acc ++ v) (fun s2 h2 => hlits s2 (by simpa [litsOf] using h2))
        (fun k2 h2 => hholes k2 (by simp [holesOf]; exact Or.inr h2)) hacc2

/-- All default parameter values are brace-free when the injected
timestamp, date and category name are. -/
theorem defaultParams_braceFree (cat ts date : String)
    (hcat : hasBrace cat = false) (hts : hasBrace ts = false)
    (hdate : hasBrace date = false) :
    ∀ kv ∈ defaultParams cat ts date, hasBrace kv.2 = false := by
  intro kv h
  simp only [defaultParams, List.mem_cons, List.not_mem_nil, or_false] at h
  rcases h with h|h|h|h|h|h|h|h|h|h|h|h|h|h|h <;> subst h <;>
    first | exact hts | exact hdate | exact hcat | decide

/-- Category-generic core of claim C6. -/
theorem generate_template_ok (cat ts date : String) (t : List Segment)
    (hl : assocLookup TEMPLATES cat = some t)
    (hlits : ∀ s ∈ litsOf t, hasBrace s = false)
    (hholes : ∀ k ∈ holesOf t, (assocLookup (defaultParams cat ts date) k).isSome = true)
    (hcat : hasBrace cat = false) (hts : hasBrace ts = false)
    (hdate : hasBrace date = false) :
    ∃ out, generate_template cat ts date [] = .ok out ∧ hasBrace out = false := by
  simp only [generate_template, hl, dictUpdate, List.foldl]
  exact renderAux_ok (defaultParams cat ts date)
    (defaultParams_braceFree cat ts date hcat hts hdate) t ""
    hlits hholes (by decide)

/-- C6: for every supported category (exactly the keys of `TEMPLATES`),
generating with no overrides succeeds — every placeholder receives a
default value, so the `KeyError` branch is not taken — and, provided the
injected timestamp and date carry no brace characters (the real clock
strings never do), the output contains no placeholder-marker braces at
all. -/
theorem claim_C6 (cat ts date : String)
    (hsup : (assocLookup TEMPLATES cat).isSome = true)
    (hts : hasBrace ts = false) (hdate : hasBrace date = false) :
    ∃ out, generate_template cat ts date [] = .ok out ∧ hasBrace out = false := by
  by_cases h1 : cat = "ssot"
  · subst h1
    exact generate_template_ok "ssot" ts date ssotTemplate rfl (by decide)
      (fun k hk => by fin_cases hk <;> rfl) (by decide) hts hdate
  by_cases h2 : cat = "pattern"
  · subst h2
    exact generate_template_ok "pattern" ts date patternTemplate rfl (by decide)
      (fun k hk => by fin_cases hk <;> rfl) (by decide) hts hdate
  by_cases h3 : cat = "reference"
  · subst h3
    exact generate_template_ok "reference" ts date referenceTemplate rfl (by decide)
      (fun k hk => by fin_cases hk <;> rfl) (by decide) hts hdate
  by_cases h4 : cat = "plan"
  · subst h4
    exact generate_template_ok "plan" ts date planTemplate rfl (by decide)
      (fun k hk => by fin_cases hk <;> rfl) (by decide) hts hdate
  exfalso
  have hnone : assocLookup TEMPLATES cat = none := by
    simp [assocLookup, TEMPLATES, Ne.symm h1, Ne.symm h2, Ne.symm h3, Ne.symm h4]
  rw [hnone] at hsup
  cases hsup

/-- Witness for C6 at the ssot category with a concrete clock. -/
theorem claim_C6_witness :
    (assocLookup TEMPLATES "ssot").isSome = true ∧
    hasBrace "2026-01-01T00:00:00+00:00" = false ∧
    hasBrace "2026-01-01" = false ∧
    ∃ out, generate_template "ssot" "2026-01-01T00:00:00+00:00" "2026-01-01" [] =
        .ok out ∧ hasBrace out = false :=
  ⟨by decide, by decide, by decide,
   claim_C6 "ssot" "2026-01-01T00:00:00+00:00" "2026-01-01" (by decide) (by decide)
     (by decide)⟩

/-- A rendering failure always carries a printed message. -/
theorem renderAux_error_ne_nil (params : List (String × String)) :
    ∀ (t : List Segment) (acc : String) (e : List String),
      renderAux params t acc = .error e → e ≠ [] := by
  intro t
  induction t with
  | nil => intro acc e h; simp [renderAux] at h
  | cons seg rest ih =>
    intro acc e h
    cases seg with
    | lit s => exact ih _ _ (by simpa [renderAux] using h)
    | hole k =>
      rw [renderAux] at h
      cases hv : assocLookup params k with
      | some v => rw [hv] at h; exact ih _ _ h
      | none =>
        rw [hv] at h
        obtain ⟨rfl⟩ : ["KeyError: " ++ k] = e := Except.error.inj h
        simp

/-- A failing `generate_template` always carries printed messages. -/
theorem generate_template_error_ne_nil (cat ts date : String)
    (kw : List (String × String)) (e : List String)
    (h : generate_template cat ts date kw = .error e) : e ≠ [] := by
  rw [generate_template] at h
  cases hl : assocLookup TEMPLATES cat with
  | none =>
    rw [hl] at h
    obtain ⟨rfl⟩ := Except.error.inj h
    simp
  | some t =>
    rw [hl] at h
    exact renderAux_error_ne_nil _ _ _ _ h

/-- C7: when the target output path already exists in the file-system
model, `main` leaves the file system untouched (so the pre-existing
content — in particular the file created by an earlier run with the same
arguments — is unchanged and no incomplete output is written), exits with
status 1, and prints a non-empty report. -/
theorem claim_C7 (fs : List (String × String)) (argv : List String)
    (ts date : String) (c : String)
    (h : assocLookup fs (argv.getD 2 "") = some c) :
    (runMain fs argv ts date).1 = fs ∧
    (runMain fs argv ts date).2.1 = 1 ∧
    (runMain fs argv ts date).2.2 ≠ [] := by
  rw [runMain]
  split
  · exact ⟨rfl, rfl, by simp [usageMsgs]⟩
  · dsimp only
    cases hg : generate_template (argv.getD 1 "") ts date (parseParams (argv.drop 3)) with
    | error msgs =>
      exact ⟨rfl, rfl, generate_template_error_ne_nil _ _ _ _ _ hg⟩
    | ok content =>
      rw [h]
      exact ⟨rfl, rfl, by simp⟩

/-- Witness for C7: a pre-existing `out.md` is not overwritten. -/
theorem claim_C7_witness :
    assocLookup [("out.md", "old")]
        (["generate_template.py", "reference", "out.md"].getD 2 "") = some "old" ∧
    ((runMain [("out.md", "old")] ["generate_template.py", "reference", "out.md"]
        "TS" "DT").1 = [("out.md", "old")] ∧
     (runMain [("out.md", "old")] ["generate_template.py", "reference", "out.md"]
        "TS" "DT").2.1 = 1 ∧
     (runMain [("out.md", "old")] ["generate_template.py", "reference", "out.md"]
        "TS" "DT").2.2 ≠ []) :=
  ⟨by decide,
   claim_C7 [("out.md", "old")] ["generate_template.py", "reference", "out.md"]
     "TS" "DT" "old" (by decide)⟩

/-- C8: the spec scenario — file `ssot_test_2026-01-01.md` with a complete
ssot frontmatter except `changelog` — validates successfully with zero
errors and exactly the single missing-changelog warning. -/
theorem claim_C8 :
    validate_metadata "ssot_test_2026-01-01.md" c8content c8parse =
      (true, [], [changelogWarnMsg]) := by decide

/-- C9: for a filename starting with none of the recognized prefixes, the
naming error is recorded in the report, the category resolves to `none`,
and the required-field check runs against the generic "ssot" required set
(the fallback of `REQUIRED_FIELDS.get`). -/
theorem claim_C9 (name content : String) (parse : String → Option Frontmatter)
    (md : Frontmatter)
    (hpre : CATEGORY_PREFIXES.any (fun p => pyStartsWith name p) = false)
    (hext : extract_frontmatter parse content = some md) :
    resolveCategory name = none ∧
    requiredGet (resolveCategory name) = ssotFields ∧
    prefixMsg ∈ (validate_metadata name content parse).2.1 ∧
    (validate_metadata name content parse).2.1 =
      validate_naming name ++ missingErrsPart none md ++
        versionErrsOf md ++ domainErrsOf md := by
  have hnone : CATEGORY_PREFIXES.find? (fun p => pyStartsWith name p) = none :=
    List.find?_eq_none.mpr (by
      intro x hx
      simpa using List.any_eq_false.mp hpre x hx)
  have hcat : resolveCategory name = none := by
    rw [resolveCategory, hnone]
    rfl
  refine ⟨hcat, by rw [hcat]; rfl, ?_, ?_⟩
  · simp only [validate_metadata, hext]
    rw [errorsOf, validate_naming, hpre]
    simp
  · simp only [validate_metadata, hext]
    rw [errorsOf, hcat]

/-- Witness for C9 at the filename `notes.md` of the spec scenario. -/
theorem claim_C9_witness :
    CATEGORY_PREFIXES.any (fun p => pyStartsWith "notes.md" p) = false ∧
    extract_frontmatter (fun _ => some []) "---\na\n---\n" = some [] ∧
    (resolveCategory "notes.md" = none ∧
     requiredGet (resolveCategory "notes.md") = ssotFields ∧
     prefixMsg ∈ (validate_metadata "notes.md" "---\na\n---\n" (fun _ => some [])).2.1 ∧
     (validate_metadata "notes.md" "---\na\n---\n" (fun _ => some [])).2.1 =
       validate_naming "notes.md" ++ missingErrsPart none [] ++
         versionErrsOf [] ++ domainErrsOf []) :=
  ⟨by decide, rfl,
   claim_C9 "notes.md" "---\na\n---\n" (fun _ => some []) [] (by decide) rfl⟩

/-- C10: for filenames with the recognized prefix `troubleshoot_` or
`commit_log`, the resolved category ("troubleshoot" or "commit_log") has
no entry in `REQUIRED_FIELDS`, so the required-field check silently falls
back to the "ssot" set; the prefix naming error is not raised, and the
ssot-only missing-changelog warning does not fire (the warnings are
exactly the updated-timestamp warnings). -/
theorem claim_C10 (name content : String) (parse : String → Option Frontmatter)
    (md : Frontmatter)
    (hpre : (pyStartsWith name "troubleshoot_" || pyStartsWith name "commit_log") = true)
    (hext : extract_frontmatter parse content = some md) :
    ∃ c, resolveCategory name = some c ∧ (c = "troubleshoot" ∨ c = "commit_log") ∧
      assocLookup REQUIRED_FIELDS c = none ∧
      requiredGet (resolveCategory name) = ssotFields ∧
      prefixMsg ∉ validate_naming name ∧
      (validate_metadata name content parse).2.2 = updatedWarnsOf md := by
  obtain ⟨dat⟩ := name
  cases h1 : pyStartsWith (String.mk dat) "troubleshoot_" with
  | true =>
    obtain ⟨rest, hr⟩ : "troubleshoot_".data <+: dat := List.isPrefixOf_iff_prefix.mp h1
    subst hr
    have e1 : pyStartsWith (String.mk ("troubleshoot_".data ++ rest)) "ssot_" = false := rfl
    have e2 : pyStartsWith (String.mk ("troubleshoot_".data ++ rest)) "pattern_" = false := rfl
    have e3 : pyStartsWith (String.mk ("troubleshoot_".data ++ rest)) "plan_" = false := rfl
    have e4 : pyStartsWith (String.mk ("troubleshoot_".data ++ rest)) "reference_" = false := rfl
    have e5 : pyStartsWith (String.mk ("troubleshoot_".data ++ rest)) "archive_" = false := rfl
    have e6 : pyStartsWith (String.mk ("troubleshoot_".data ++ rest)) "troubleshoot_" = true :=
      List.isPrefixOf_iff_prefix.mpr ⟨rest, rfl⟩
    have hfind : CATEGORY_PREFIXES.find?
        (fun p => pyStartsWith (String.mk ("troubleshoot_".data ++ rest)) p) =
        some "troubleshoot_" := by
      simp only [CATEGORY_PREFIXES, List.find?_cons, e1, e2, e3, e4, e5, e6]
    have hcat : resolveCategory (String.mk ("troubleshoot_".data ++ rest)) =
        some "troubleshoot" := by
      rw [resolveCategory, hfind]
      decide
    have hany : CATEGORY_PREFIXES.any
        (fun p => pyStartsWith (String.mk ("troubleshoot_".data ++ rest)) p) = true := by
      simp only [CATEGORY_PREFIXES, List.any_cons, e6]
      simp
    have hnaming : validate_naming (String.mk ("troubleshoot_".data ++ rest)) =
        if pyEndsWith (String.mk ("troubleshoot_".data ++ rest)) ".md" then [] else [mdMsg] := by
      rw [validate_naming, hany]
      simp
    refine ⟨"troubleshoot", hcat, Or.inl rfl, by decide, by rw [hcat]; decide, ?_, ?_⟩
    · intro hmem
      rw [hnaming] at hmem
      split at hmem
      · exact (List.not_mem_nil _) hmem
      · exact absurd (List.mem_singleton.mp hmem) (show prefixMsg ≠ mdMsg by decide)
    · simp only [validate_metadata, hext]
      rw [warningsOf, changelogWarnsOf, hcat]
      rw [if_neg (show ¬(some "troubleshoot" = some "ssot") by decide), List.append_nil]
  | false =>
    have h2 : pyStartsWith (String.mk dat) "commit_log" = true := by
      rw [h1] at hpre
      simpa using hpre
    obtain ⟨rest, hr⟩ : "commit_log".data <+: dat := List.isPrefixOf_iff_prefix.mp h2
    subst hr
    have e1 : pyStartsWith (String.mk ("commit_log".data ++ rest)) "ssot_" = false := rfl
    have e2 : pyStartsWith (String.mk ("commit_log".data ++ rest)) "pattern_" = false := rfl
    have e3 : pyStartsWith (String.mk ("commit_log".data ++ rest)) "plan_" = false := rfl
    have e4 : pyStartsWith (String.mk ("commit_log".data ++ rest)) "reference_" = false := rfl
    have e5 : pyStartsWith (String.mk ("commit_log".data ++ rest)) "archive_" = false := rfl
    have e6 : pyStartsWith (String.mk ("commit_log".data ++ rest)) "troubleshoot_" = false := rfl
    have e7 : pyStartsWith (String.mk ("commit_log".data ++ rest)) "commit_log" = true :=
      List.isPrefixOf_iff_prefix.mpr ⟨rest, rfl⟩
    have hfind : CATEGORY_PREFIXES.find?
        (fun p => pyStartsWith (String.mk ("commit_log".data ++ rest)) p) =
        some "commit_log" := by
      simp only [CATEGORY_PREFIXES, List.find?_cons, e1, e2, e3, e4, e5, e6, e7]
    have hcat : resolveCategory (String.mk ("commit_log".data ++ rest)) =
        some "commit_log" := by
      rw [resolveCategory, hfind]
      decide
    have hany : CATEGORY_PREFIXES.any
        (fun p => pyStartsWith (String.mk ("commit_log".data ++ rest)) p) = true := by
      simp only [CATEGORY_PREFIXES, List.any_cons, e7]
      simp
    have hnaming : validate_naming (String.mk ("commit_log".data ++ rest)) =
        if pyEndsWith (String.mk ("commit_log".data ++ rest)) ".md" then [] else [mdMsg] := by
      rw [validate_naming, hany]
      simp
    refine ⟨"commit_log", hcat, Or.inr rfl, by decide, by rw [hcat]; decide, ?_, ?_⟩
    · intro hmem
      rw [hnaming] at hmem
      split at hmem
      · exact (List.not_mem_nil _) hmem
      · exact absurd (List.mem_singleton.mp hmem) (show prefixMsg ≠ mdMsg by decide)
    · simp only [validate_metadata, hext]
      rw [warningsOf, changelogWarnsOf, hcat]
      rw [if_neg (show ¬(some "commit_log" = some "ssot") by decide), List.append_nil]

/-- Witness for C10 at a concrete troubleshoot file. -/
theorem claim_C10_witness :
    (pyStartsWith "troubleshoot_x.md" "troubleshoot_" ||
      pyStartsWith "troubleshoot_x.md" "commit_log") = true ∧
    extract_frontmatter (fun _ => some []) "---\na\n---\n" = some [] ∧
    ∃ c, resolveCategory "troubleshoot_x.md" = some c ∧
      (c = "troubleshoot" ∨ c = "commit_log") ∧
      assocLookup REQUIRED_FIELDS c = none ∧
      requiredGet (resolveCategory "troubleshoot_x.md") = ssotFields ∧
      prefixMsg ∉ validate_naming "troubleshoot_x.md" ∧
      (validate_metadata "troubleshoot_x.md" "---\na\n---\n" (fun _ => some [])).2.2 =
        updatedWarnsOf [] :=
  ⟨by decide, rfl,
   claim_C10 "troubleshoot_x.md" "---\na\n---\n" (fun _ => some []) [] (by decide) rfl⟩
